import Mathlib

set_option maxRecDepth 8000

namespace SGPbot

/-!
Verification development for the SGPbot proposal-moderation bot.

The Python sources (bot.py, command.py, bot2.py) are embedded shallowly:
strings handled character-wise are modelled as `List Char`, the relational
store is modelled as association lists keyed by the SQL primary key, each
asynchronous handler becomes a pure function from a database value (plus the
transport inputs it reads) to a new database value together with the list of
outbound effects it performs, and every read of the wall clock becomes an
explicit integer parameter.  Definitions keep the source names.
-/

/-! ## Content normalizer (bot.py lines 363-408 and 1364-1408) -/

/-- Python str.replace for a one-character pattern: every occurrence of the
character is replaced by the replacement string (embeds the building block of
escape_html, bot.py line 399). -/
def replaceChar (c : Char) (r : List Char) : List Char → List Char
  | [] => []
  | ch :: rest => (if ch = c then r else [ch]) ++ replaceChar c r rest

/-- bot.py escape_html (line 399): replace the ampersand first, then the two
angle brackets. -/
def escape_html (text : List Char) : List Char :=
  replaceChar '>' ("&gt;".data) (replaceChar '<' ("&lt;".data) (replaceChar '&' ("&amp;".data) text))

/-- One aiogram MessageEntity as read by entities_to_html: offset, length and
type, plus the url (text_link), language (pre) and user id (text_mention)
attributes it may carry. -/
structure MessageEntity where
  offset : Nat
  length : Nat
  type : String
  url : List Char
  language : List Char
  user : Option Nat
  deriving DecidableEq

/-- Decimal digit character, code point 48 + d. -/
def digitChar (d : Nat) : Char := Char.ofNat (48 + d)

/-- Decimal rendering of a natural number (Python str(int) for the user id
interpolated into the text_mention anchor). -/
def natDigits (n : Nat) : List Char :=
  if n < 10 then [digitChar n]
  else natDigits (n / 10) ++ [digitChar (n % 10)]
decreasing_by exact Nat.div_lt_self (by omega) (by omega)

/-- Python slicing text[a:b] with 0 ≤ a ≤ b (empty when b ≤ a). -/
def pySlice (s : List Char) (a b : Nat) : List Char := (s.take b).drop a

/-- The body of the entity loop in entities_to_html (bot.py lines 1377-1404):
wraps the escaped segment in the template selected by the entity type; an
unknown type degrades to the escaped plain segment. -/
def renderEntity (segment : List Char) (e : MessageEntity) : List Char :=
  let seg_escaped := escape_html segment
  if e.type = "bold" then "<b>".data ++ seg_escaped ++ "</b>".data
  else if e.type = "italic" then "<i>".data ++ seg_escaped ++ "</i>".data
  else if e.type = "underline" then "<u>".data ++ seg_escaped ++ "</u>".data
  else if e.type = "strikethrough" then "<s>".data ++ seg_escaped ++ "</s>".data
  else if e.type = "code" then "<code>".data ++ seg_escaped ++ "</code>".data
  else if e.type = "pre" then
    if e.language ≠ [] then
      "<pre><code class=\"language-".data ++ escape_html e.language ++ "\">".data
        ++ seg_escaped ++ "</code></pre>".data
    else "<pre>".data ++ seg_escaped ++ "</pre>".data
  else if e.type = "text_link" then
    "<a href=\"".data ++ escape_html e.url ++ "\">".data ++ seg_escaped ++ "</a>".data
  else if e.type = "text_mention" then
    match e.user with
    | some uid => "<a href=\"tg://user?id=".data ++ natDigits uid ++ "\">".data
        ++ seg_escaped ++ "</a>".data
    | none => seg_escaped
  else seg_escaped

/-- The loop of entities_to_html (bot.py lines 1370-1407): walk the sorted
entities keeping the cursor last, emitting escaped plain spans between the
wrapped spans, and finally the escaped tail of the text. -/
def entLoop (text : List Char) : List MessageEntity → Nat → List Char
  | [], last => if last < text.length then escape_html (text.drop last) else []
  | e :: rest, last =>
      (if e.offset > last then escape_html (pySlice text last e.offset) else [])
        ++ renderEntity (pySlice text e.offset (e.offset + e.length)) e
        ++ entLoop text rest (e.offset + e.length)

/-- Stable insertion of an entity in front of the first already-placed entity
with an offset not smaller than its own. -/
def insertByOffset (e : MessageEntity) : List MessageEntity → List MessageEntity
  | [] => [e]
  | f :: rest => if f.offset < e.offset then f :: insertByOffset e rest else e :: f :: rest

/-- Python sorted(entities, key=offset): a stable sort by offset. -/
def sortByOffset : List MessageEntity → List MessageEntity
  | [] => []
  | e :: rest => insertByOffset e (sortByOffset rest)

/-- bot.py entities_to_html (lines 1364-1408). -/
def entities_to_html (text : List Char) (entities : List MessageEntity) : List Char :=
  match entities with
  | [] => escape_html text
  | _ => entLoop text (sortByOffset entities) 0

/-- bot.py APPENDED_LINKS_HTML (line 110): the fixed promotional footer. -/
def APPENDED_LINKS_HTML : String :=
  "<a href=\"https://t.me/predlojka_gp_bot\">Предложить пост</a> • <a href=\"https://t.me/comments_gp_plavni\">Чат</a> • <a href=\"https://t.me/boost/channel_gp_plavni\">Буст</a>"

/-- The combined markup built for a text submission (bot.py line 826): the
normalized body, two newlines, then the fixed footer. -/
def combined_text_html (body : List Char) (ents : List MessageEntity) : List Char :=
  entities_to_html body ents ++ "\n\n".data ++ APPENDED_LINKS_HTML.data

/-- State machine of the spec-side tag stripper: the flag tells whether the
walk currently sits inside an angle-bracket wrapper tag. -/
def stripTagsGo : Bool → List Char → List Char
  | _, [] => []
  | false, '<' :: rest => stripTagsGo true rest
  | false, c :: rest => c :: stripTagsGo false rest
  | true, '>' :: rest => stripTagsGo false rest
  | true, _ :: rest => stripTagsGo true rest

/-- Spec-side plain rendering, following the words of the specification: the
wrapper tags (maximal angle-bracket runs) are stripped from the markup. -/
def stripWrapperTags (s : List Char) : List Char := stripTagsGo false s

/-- Spec-side undoing of the character escaping performed by escape_html. -/
def unescapeHtml : List Char → List Char
  | [] => []
  | '&' :: 'a' :: 'm' :: 'p' :: ';' :: rest => '&' :: unescapeHtml rest
  | '&' :: 'l' :: 't' :: ';' :: rest => '<' :: unescapeHtml rest
  | '&' :: 'g' :: 't' :: ';' :: rest => '>' :: unescapeHtml rest
  | c :: rest => c :: unescapeHtml rest

/-! ## Data model (bot.py lines 126-292): users and proposals tables -/

/-- One row of the users table (bot.py lines 131-141), with its column
defaults. -/
structure UserRow where
  lang : String
  lang_selected : Bool
  reputation : Int
  banned_until : Int
  in_propose : Bool
  accepted_count : Int
  declined_count : Int
  deriving DecidableEq

/-- The column defaults of the users table. -/
def defaultUser : UserRow :=
  { lang := "ru", lang_selected := false, reputation := 0, banned_until := 0,
    in_propose := false, accepted_count := 0, declined_count := 0 }

/-- One row of the proposals table (bot.py lines 144-158). -/
structure ProposalRow where
  user_id : Nat
  user_chat_id : Nat
  user_msg_id : Nat
  group_header_msg_id : Option Nat
  group_post_msg_id : Option Nat
  group_mod_msg_id : Option Nat
  created_at : Int
  status : String
  mod_id : Option Nat
  mod_action : Option String
  mod_action_param : Option String
  deriving DecidableEq

/-- The database: both tables as association lists keyed by the primary key,
plus the SERIAL counter for proposal ids. -/
structure DB where
  users : List (Nat × UserRow)
  proposals : List (Nat × ProposalRow)
  next_id : Nat
  deriving DecidableEq

/-- SELECT by primary key: the first row with the given key. -/
def dbLookup {α : Type} : List (Nat × α) → Nat → Option α
  | [], _ => none
  | p :: rest, k => if p.1 = k then some p.2 else dbLookup rest k

/-- UPDATE by primary key: rewrite every row whose key matches. -/
def dbUpdate {α : Type} (f : α → α) (k : Nat) (l : List (Nat × α)) : List (Nat × α) :=
  l.map (fun p => if p.1 = k then (p.1, f p.2) else p)

/-- bot.py get_user (line 181). -/
def get_user (db : DB) (user_id : Nat) : Option UserRow := dbLookup db.users user_id

/-- bot.py get_proposal (line 270). -/
def get_proposal (db : DB) (proposal_id : Nat) : Option ProposalRow :=
  dbLookup db.proposals proposal_id

/-- UPDATE users SET ... WHERE user_id = uid. -/
def updateUser (db : DB) (user_id : Nat) (f : UserRow → UserRow) : DB :=
  { db with users := dbUpdate f user_id db.users }

/-- UPDATE proposals SET ... WHERE id = pid. -/
def updateProposal (db : DB) (proposal_id : Nat) (f : ProposalRow → ProposalRow) : DB :=
  { db with proposals := dbUpdate f proposal_id db.proposals }

/-- bot.py ensure_user_row (line 165): INSERT ... ON CONFLICT DO NOTHING. -/
def ensure_user_row (db : DB) (user_id : Nat) : DB :=
  match dbLookup db.users user_id with
  | some _ => db
  | none => { db with users := db.users ++ [(user_id, defaultUser)] }

/-- bot.py set_in_propose (line 201). -/
def set_in_propose (db : DB) (user_id : Nat) (value : Bool) : DB :=
  updateUser db user_id (fun u => { u with in_propose := value })

/-- bot.py set_banned_until (line 205). -/
def set_banned_until (db : DB) (user_id : Nat) (until_ts : Int) : DB :=
  updateUser db user_id (fun u => { u with banned_until := until_ts })

/-- bot.py add_reputation (line 209): a single atomic increment. -/
def add_reputation (db : DB) (user_id : Nat) (delta : Int) : DB :=
  updateUser db user_id (fun u => { u with reputation := u.reputation + delta })

/-- bot.py increment_accepted (line 218). -/
def increment_accepted (db : DB) (user_id : Nat) (delta : Int) : DB :=
  updateUser db user_id (fun u => { u with accepted_count := u.accepted_count + delta })

/-- bot.py increment_declined (line 222). -/
def increment_declined (db : DB) (user_id : Nat) (delta : Int) : DB :=
  updateUser db user_id (fun u => { u with declined_count := u.declined_count + delta })

/-- bot.py create_proposal_entry (line 226): INSERT RETURNING id, with status
defaulting to pending and the message-reference columns NULL. -/
def create_proposal_entry (db : DB) (user_id user_chat_id user_msg_id : Nat) (now : Int) :
    DB × Nat :=
  let pid := db.next_id
  ({ db with
      proposals := db.proposals ++
        [(pid, { user_id := user_id, user_chat_id := user_chat_id,
                 user_msg_id := user_msg_id, group_header_msg_id := none,
                 group_post_msg_id := none, group_mod_msg_id := none,
                 created_at := now, status := "pending", mod_id := none,
                 mod_action := none, mod_action_param := none })],
      next_id := pid + 1 },
   pid)

/-- bot.py update_proposal_ids (line 239): only the arguments that are
provided (not None) are written; provided arguments overwrite whatever the
column held before. -/
def update_proposal_ids (db : DB) (proposal_id : Nat)
    (header_msg_id post_msg_id mod_msg_id : Option Nat) : DB :=
  updateProposal db proposal_id (fun p =>
    { p with
        group_header_msg_id :=
          match header_msg_id with | some h => some h | none => p.group_header_msg_id,
        group_post_msg_id :=
          match post_msg_id with | some h => some h | none => p.group_post_msg_id,
        group_mod_msg_id :=
          match mod_msg_id with | some h => some h | none => p.group_mod_msg_id })

/-- bot.py set_proposal_status_and_mod (line 259): an unconditional UPDATE of
status, mod_id, mod_action and mod_action_param for the given proposal id; it
takes no expected from-status and returns nothing. -/
def set_proposal_status_and_mod (db : DB) (proposal_id : Nat) (status : String)
    (mod_id : Option Nat) (action : Option String) (param : Option String) : DB :=
  updateProposal db proposal_id (fun p =>
    { p with status := status, mod_id := mod_id, mod_action := action,
             mod_action_param := param })

/-! ## Texts (bot.py lines 60-123) -/

def CONFIRM_SENT_RU : String := "✅ Ваш пост отправлен на рассмотрение. Дождитесь, пока его проверят."

def CONFIRM_SENT_UK : String := "✅ Ваш пост відправлений на розгляд. Зачекайте, поки його перевірять."

def ACCEPT_NOTICE_RU (n : Int) : String :=
  "🆙 Ваш пост был принят! Вы заработали +" ++ toString n ++ " репутации."

def ACCEPT_NOTICE_UK (n : Int) : String :=
  "🆙 Ваш пост був прийнятий! Ви заробили +" ++ toString n ++ " репутації."

def DECLINE_NOTICE_RU : String := "❌ Ваш пост был отклонён."

def DECLINE_NOTICE_UK : String := "❌ Ваш пост був відхилений."

def DECLINE_PENALTY_NOTICE_RU (n : Int) : String :=
  "❌ Ваш пост был отклонён. Вы потеряли -" ++ toString n ++ " репутации."

def DECLINE_PENALTY_NOTICE_UK (n : Int) : String :=
  "❌ Ваш пост був відхилений. Ви загубили -" ++ toString n ++ " репутації."

def BANNED_NOTICE_RU (period : String) : String :=
  "🚫 Вы были забанены в опции предложения постов на " ++ period ++ "."

def BANNED_NOTICE_UK (period : String) : String :=
  "🚫 Ви були забанені у опції пропозиції постів на " ++ period ++ "."

def UNBANNED_NOTICE_RU : String :=
  "🔓 Срок Вашего бана в опции предложения постов был окончен! Вы снова можете предлагать свои посты."

def UNBANNED_NOTICE_UK : String :=
  "🔓 Термін Вашого бану в опції пропозиції постів закінчився! Ви знову можете пропонувати свої пости."

/-- The X_UK if lang == uk else X_RU selection used throughout bot.py. -/
def acceptNoticeText (lang : String) (n : Int) : String :=
  if lang = "uk" then ACCEPT_NOTICE_UK n else ACCEPT_NOTICE_RU n

def declineNoticeText (lang : String) : String :=
  if lang = "uk" then DECLINE_NOTICE_UK else DECLINE_NOTICE_RU

def declinePenaltyNoticeText (lang : String) (n : Int) : String :=
  if lang = "uk" then DECLINE_PENALTY_NOTICE_UK n else DECLINE_PENALTY_NOTICE_RU n

def bannedNoticeText (lang : String) (period : String) : String :=
  if lang = "uk" then BANNED_NOTICE_UK period else BANNED_NOTICE_RU period

def unbannedNoticeText (lang : String) : String :=
  if lang = "uk" then UNBANNED_NOTICE_UK else UNBANNED_NOTICE_RU

def confirmText (lang : String) : String :=
  if lang = "uk" then CONFIRM_SENT_UK else CONFIRM_SENT_RU

/-- bot.py format_remaining (line 382), with the clock read made explicit:
remaining time until ts_end rendered as days, hours and minutes. -/
def format_remaining (ts_end : Int) (now : Int) : String :=
  if ts_end ≤ 0 then "0д, 0ч, 0м"
  else
    let rem := ts_end - now
    if rem ≤ 0 then "0д, 0ч, 0м"
    else
      let r := rem.toNat
      let days := r / 86400
      let hours := (r % 86400) / 3600
      let minutes := (r % 3600) / 60
      toString days ++ "д, " ++ toString hours ++ "ч, " ++ toString minutes ++ "м"

/-! ## Outbound effects and keyboards -/

/-- The inline keyboards a handler can attach to the moderator control card
(bot.py lines 341-380). -/
inductive Kb where
  | modButtons (proposal_id : Nat)
  | repButtons (proposal_id : Nat)
  | declinePenaltyButtons (proposal_id : Nat)
  | banDurationButtons (proposal_id : Nat)
  | finalChoice (label : String) (proposal_id : Nat)
  deriving DecidableEq

/-- One outbound side effect of a handler: callback answers, direct messages,
sends and copies to the proposal group and the channel, control-card edits,
and the reputation-title mirror sync. -/
inductive Eff where
  | answer (text : String)
  | replyUser (text : String)
  | sendUser (chat_id : Nat) (text : String)
  | sendGroupHeader
  | sendGroupPost (html : List Char)
  | copyPostToGroup
  | sendChannel (text : String)
  | copyToChannel (msg_id : Nat)
  | editCard (kb : Kb)
  | syncTitle (user_id : Nat)
  deriving DecidableEq

/-! ## Moderation state machine (bot.py lines 912-1175) -/

/-- bot.py cb_mod_actions (lines 912-989), after the callback payload has
been parsed into an action and a proposal id.  channelConfigured tells
whether CHANNEL_ID is set; callText is the text of the clicked message (None
for a media message); remote sends are modelled as succeeding. -/
def cb_mod_actions (db : DB) (action : String) (proposal_id : Nat)
    (channelConfigured : Bool) (callText : Option String) : DB × List Eff :=
  match get_proposal db proposal_id with
  | none => (db, [Eff.answer "Заявка не найдена."])
  | some prop =>
    if action = "accept" then
      let chanEffs :=
        match channelConfigured, prop.group_post_msg_id with
        | true, some postId =>
          match callText with
          | some t =>
            [Eff.sendChannel (if t ≠ "" then t ++ "\n\n" ++ APPENDED_LINKS_HTML
              else APPENDED_LINKS_HTML)]
          | none => [Eff.copyToChannel postId]
        | _, _ => []
      (set_proposal_status_and_mod db proposal_id "accepted" none (some "accept") none,
       chanEffs ++ [Eff.editCard (Kb.repButtons proposal_id)])
    else if action = "decline" then
      (db, [Eff.editCard (Kb.declinePenaltyButtons proposal_id)])
    else if action = "ban" then
      (db, [Eff.editCard (Kb.banDurationButtons proposal_id)])
    else (db, [])

/-- Accumulate the decimal value of a digit run; None on a non-digit. -/
def digitsAcc (acc : Nat) : List Char → Option Nat
  | [] => some acc
  | c :: rest => if c.isDigit then digitsAcc (acc * 10 + (c.toNat - 48)) rest else none

/-- Python int(str) on a callback payload argument: an optional minus sign
followed by decimal digits; None when the conversion raises. -/
def pyInt? (s : String) : Option Int :=
  match s.data with
  | [] => none
  | '-' :: c :: rest =>
    if c.isDigit then (digitsAcc (c.toNat - 48) rest).map (fun n => -(n : Int)) else none
  | c :: rest =>
    if c.isDigit then (digitsAcc (c.toNat - 48) rest).map (fun n => (n : Int)) else none

/-- bot.py cb_decline_penalty (lines 991-1067), after payload parsing: arg is
the second payload field (back, 0 or 1). -/
def cb_decline_penalty (db : DB) (arg : String) (proposal_id : Nat) (mod_id : Nat) :
    DB × List Eff :=
  if arg = "back" then (db, [Eff.editCard (Kb.modButtons proposal_id)])
  else
    match pyInt? arg with
    | none => (db, [])
    | some penalty =>
      match get_proposal db proposal_id with
      | none => (db, [])
      | some prop =>
        if penalty = 0 then
          let db1 := set_proposal_status_and_mod db proposal_id "declined"
            (some mod_id) (some "decline") (some "0")
          let db2 := increment_declined db1 prop.user_id 1
          let lang := (match get_user db2 prop.user_id with
            | some u => u.lang | none => "ru")
          (db2, [Eff.sendUser prop.user_chat_id (declineNoticeText lang),
                 Eff.editCard (Kb.finalChoice "❌ Отклонить" proposal_id)])
        else if penalty = 1 then
          let db1 := add_reputation db prop.user_id (-1)
          let db2 := set_proposal_status_and_mod db1 proposal_id "declined"
            (some mod_id) (some "decline") (some "-1")
          let db3 := increment_declined db2 prop.user_id 1
          let lang := (match get_user db3 prop.user_id with
            | some u => u.lang | none => "ru")
          (db3, [Eff.syncTitle prop.user_id,
                 Eff.sendUser prop.user_chat_id (declinePenaltyNoticeText lang 1),
                 Eff.editCard (Kb.finalChoice "❌ Отклонить" proposal_id)])
        else (db, [])

/-- bot.py cb_ban_duration (lines 1069-1131), after payload parsing: dur is
the chosen duration label.  now is the clock read at line 1093; nowFmt the
clock read inside format_remaining at line 1117. -/
def cb_ban_duration (db : DB) (dur : String) (proposal_id : Nat) (mod_id : Nat)
    (now nowFmt : Int) : DB × List Eff :=
  if dur = "back" then (db, [Eff.editCard (Kb.modButtons proposal_id)])
  else
    match get_proposal db proposal_id with
    | none => (db, [])
    | some prop =>
      let choice : Option (Int × String) :=
        if dur = "12h" then some (now + 12 * 3600, "12 часов")
        else if dur = "24h" then some (now + 24 * 3600, "24 часов")
        else if dur = "3d" then some (now + 3 * 24 * 3600, "3 дня")
        else if dur = "7d" then some (now + 7 * 24 * 3600, "1 неделя")
        else if dur = "forever" then some (2 ^ 31 - 1, "навсегда")
        else none
      match choice with
      | none => (db, [])
      | some (untilTs, timestr) =>
        let db1 := set_banned_until db prop.user_id untilTs
        let db2 := set_proposal_status_and_mod db1 proposal_id "banned"
          (some mod_id) (some "ban") (some timestr)
        let lang := (match get_user db2 prop.user_id with
          | some u => u.lang | none => "ru")
        (db2, [Eff.sendUser prop.user_chat_id
                 (bannedNoticeText lang (format_remaining untilTs nowFmt)),
               Eff.editCard (Kb.finalChoice "🚫 Бан" proposal_id)])

/-- bot.py cb_rep_buttons (lines 1133-1175), after payload parsing: the
moderator picked rep_amount for the proposal. -/
def cb_rep_buttons (db : DB) (rep_amount : Int) (proposal_id : Nat) (mod_id : Nat) :
    DB × List Eff :=
  match get_proposal db proposal_id with
  | none => (db, [Eff.answer "Заявка не найдена."])
  | some prop =>
    let db1 := add_reputation db prop.user_id rep_amount
    let db2 := increment_accepted db1 prop.user_id 1
    let db3 := set_proposal_status_and_mod db2 proposal_id "published"
      (some mod_id) (some "accept") (some (toString rep_amount))
    let lang := (match get_user db3 prop.user_id with
      | some u => u.lang | none => "ru")
    (db3, [Eff.syncTitle prop.user_id,
           Eff.sendUser prop.user_chat_id (acceptNoticeText lang rep_amount),
           Eff.editCard (Kb.finalChoice ("✅ Принять +" ++ toString rep_amount) proposal_id)])

/-! ## Reputation display toggle (bot.py lines 1294-1324) -/

/-- The reputation read performed by cb_toggle_rep: the row value, or the
column default when the row is missing. -/
def userRep (row : Option UserRow) : Int :=
  match row with
  | some r => r.reputation
  | none => 0

/-- Outcome of a toggle press. -/
inductive ToggleResult where
  | notYourButton
  | refusedLowRep
  | granted
  | grantFailed
  | removed
  | removeFailed
  deriving DecidableEq

/-- bot.py cb_toggle_rep (lines 1294-1324): hasTitle is the current remote
state of the reputation title; apiOk is whether the remote grant or removal
call succeeds. -/
def cb_toggle_rep (caller_id target_id : Nat) (row : Option UserRow)
    (hasTitle apiOk : Bool) : ToggleResult :=
  if caller_id ≠ target_id then ToggleResult.notYourButton
  else if ¬ hasTitle then
    if userRep row < 25 then ToggleResult.refusedLowRep
    else if apiOk then ToggleResult.granted else ToggleResult.grantFailed
  else if apiOk then ToggleResult.removed else ToggleResult.removeFailed

/-! ## Ban sweeper (bot.py lines 1330-1348) -/

/-- One tick of bot.py unban_watcher: fetch every user with
0 < banned_until <= now, clear each fetched row, and send each fetched user
the unbanned notice for their language. -/
def unban_watcher_tick (db : DB) (now : Int) : DB × List Eff :=
  let rows := db.users.filter
    (fun p => decide (0 < p.2.banned_until) && decide (p.2.banned_until ≤ now))
  (rows.foldl (fun d p => set_banned_until d p.1 0) db,
   rows.map (fun p => Eff.sendUser p.1 (unbannedNoticeText p.2.lang)))

/-! ## Submission flow (bot.py lines 639-909, propose-mode tail) -/

def WELCOME_RU (rep accepted declined : Int) : String :=
  "<b>👋 Добро пожаловать в бота «СГП»!</b>\nЗдесь Вы можете предложить пост или обратиться в поддержку канала.\n\n🆙 Ваша репутация: "
    ++ toString rep ++ "\n✅ Принятых постов: " ++ toString accepted
    ++ "\n❌ Отклонённых постов: " ++ toString declined
    ++ "\n\nРепутацию можно повысить предложив пост, который в следствии будет одобрен."

def WELCOME_UK (rep accepted declined : Int) : String :=
  "<b>👋 Ласкаво просимо до бота «СГП»!</b>\nТут ви можете запропонувати пост або звернутися до підтримки каналу.\n\n🆙 Ваша репутація: "
    ++ toString rep ++ "\n✅ Прийнятих постів: " ++ toString accepted
    ++ "\n❌ Відхилених постів: " ++ toString declined
    ++ "\n\nРепутацію можна підвищити, запропонувавши пост, який в результаті буде схвалено."

def welcomeText (lang : String) (rep accepted declined : Int) : String :=
  if lang = "uk" then WELCOME_UK rep accepted declined
  else WELCOME_RU rep accepted declined

def promptText (lang : String) : String :=
  if lang = "uk" then "Оберіть дію:" else "Выберите действие:"

/-- The content of an inbound propose-mode message: a text message with its
entities, or a media message with an optional caption and its caption
entities. -/
inductive MsgContent where
  | text (body : List Char) (entities : List MessageEntity)
  | media (caption : Option (List Char)) (entities : List MessageEntity)
  deriving DecidableEq

/-- bot.py handle_any_message, propose-mode tail (lines 776-909), reached
when the message is neither a keyboard shortcut nor a delegated command.
Transport inputs are explicit: now is the clock read at line 783 (also used
for the clock reads inside format_remaining and create_proposal_entry);
predlojkaConfigured is whether PREDLOJKA_ID is set; headerId and postId are
the message ids the group assigns to the header and the post copy; attachOk
is whether attaching the moderation buttons to the post message succeeded
(otherwise they are attached to the header).  Remote sends are modelled as
succeeding. -/
def handle_any_message (db : DB) (uid chatId msgId : Nat) (now : Int)
    (content : MsgContent) (predlojkaConfigured attachOk : Bool)
    (headerId postId : Nat) : DB × List Eff :=
  let db0 := ensure_user_row db uid
  let row := (get_user db0 uid).getD defaultUser
  if ¬ row.in_propose then (db0, [])
  else if row.banned_until ≠ 0 ∧ now < row.banned_until then
    (set_in_propose db0 uid false,
     [Eff.replyUser (bannedNoticeText row.lang (format_remaining row.banned_until now))])
  else
    let created := create_proposal_entry db0 uid chatId msgId now
    let db1 := created.1
    let pid := created.2
    if ¬ predlojkaConfigured then
      (set_in_propose db1 uid false,
       [Eff.replyUser "PREDLOJKA_ID not configured in environment. Обратитесь к администратору."])
    else
      let postEffs :=
        match content with
        | MsgContent.text body ents => [Eff.sendGroupPost (combined_text_html body ents)]
        | MsgContent.media _ _ => [Eff.copyPostToGroup]
      let modMsgId := if attachOk then postId else headerId
      let db2 := update_proposal_ids db1 pid (some headerId) (some postId) (some modMsgId)
      let db3 := set_in_propose db2 uid false
      let row2 := (get_user db3 uid).getD defaultUser
      (db3,
       [Eff.sendGroupHeader] ++ postEffs ++
       [Eff.editCard (Kb.modButtons pid),
        Eff.replyUser (confirmText row.lang),
        Eff.sendUser uid (welcomeText row.lang row2.reputation row2.accepted_count
          row2.declined_count),
        Eff.sendUser uid (promptText row.lang)])

/-! ## Auxiliary definitions for the statements -/

/-- Per-character characterization of escape_html: what one input character
contributes to the escaped output. -/
def escChar (c : Char) : List Char :=
  if c = '&' then "&amp;".data
  else if c = '<' then "&lt;".data
  else if c = '>' then "&gt;".data
  else [c]

/-- The number of wrapper tags (counted by their opening angle brackets, which
equals the count by closing angle brackets) that entities_to_html emits for
one entity. -/
def tagAngles (e : MessageEntity) : Nat :=
  if e.type = "bold" then 2
  else if e.type = "italic" then 2
  else if e.type = "underline" then 2
  else if e.type = "strikethrough" then 2
  else if e.type = "code" then 2
  else if e.type = "pre" then (if e.language ≠ [] then 4 else 2)
  else if e.type = "text_link" then 2
  else if e.type = "text_mention" then
    (match e.user with | some _ => 2 | none => 0)
  else 0

/-- A sample proposal row used in concrete database states. -/
def mkProposal (status : String) : ProposalRow :=
  { user_id := 7, user_chat_id := 70, user_msg_id := 700,
    group_header_msg_id := none, group_post_msg_id := none,
    group_mod_msg_id := none, created_at := 0, status := status,
    mod_id := none, mod_action := none, mod_action_param := none }

/-- A sample user row used in concrete database states. -/
def mkUser (rep banned : Int) (inPropose : Bool) : UserRow :=
  { defaultUser with
      reputation := rep,
      banned_until := banned,
      in_propose := inPropose }

/-! ## Lemmas about the store primitives -/

theorem dbLookup_dbUpdate_self {α : Type} (f : α → α) (k : Nat) (l : List (Nat × α)) :
    dbLookup (dbUpdate f k l) k = (dbLookup l k).map f := by
  induction l with
  | nil => rfl
  | cons p rest ih =>
    by_cases h : p.1 = k
    · simp [dbUpdate, dbLookup, h]
    · simpa [dbUpdate, dbLookup, h] using ih

theorem dbLookup_dbUpdate_ne {α : Type} (f : α → α) (k k' : Nat) (l : List (Nat × α))
    (h : k' ≠ k) : dbLookup (dbUpdate f k l) k' = dbLookup l k' := by
  induction l with
  | nil => rfl
  | cons p rest ih =>
    have ih' : dbLookup (List.map (fun q => if q.1 = k then (q.1, f q.2) else q) rest) k'
        = dbLookup rest k' := ih
    by_cases hp : p.1 = k
    · simp [dbUpdate, dbLookup, hp, Ne.symm h, ih']
    · by_cases hq : p.1 = k'
      · simp [dbUpdate, dbLookup, hp, hq, h]
      · simp [dbUpdate, dbLookup, hp, hq, ih']

theorem get_user_updateUser (db : DB) (uid : Nat) (f : UserRow → UserRow) :
    get_user (updateUser db uid f) uid = (get_user db uid).map f :=
  dbLookup_dbUpdate_self f uid db.users

theorem get_user_updateUser_ne (db : DB) (uid uid' : Nat) (f : UserRow → UserRow)
    (h : uid' ≠ uid) : get_user (updateUser db uid f) uid' = get_user db uid' :=
  dbLookup_dbUpdate_ne f uid uid' db.users h

theorem get_proposal_updateProposal (db : DB) (pid : Nat) (f : ProposalRow → ProposalRow) :
    get_proposal (updateProposal db pid f) pid = (get_proposal db pid).map f :=
  dbLookup_dbUpdate_self f pid db.proposals

theorem get_proposal_updateUser (db : DB) (uid pid : Nat) (f : UserRow → UserRow) :
    get_proposal (updateUser db uid f) pid = get_proposal db pid := rfl

theorem get_user_updateProposal (db : DB) (uid pid : Nat) (f : ProposalRow → ProposalRow) :
    get_user (updateProposal db pid f) uid = get_user db uid := rfl

theorem ensure_user_row_existing (db : DB) (uid : Nat) (row : UserRow)
    (h : get_user db uid = some row) : ensure_user_row db uid = db := by
  simp only [get_user] at h
  simp [ensure_user_row, h]

/-! ## Claim C1: the state-transition operation -/

/-- Claim C1, counterexample.  The claim says the transition operation is an
atomic compare-and-set that fails without side effects when the current
status differs from the expected from-status, and that a moderator action
losing that race emits an "already processed" notice and performs no store
mutation.  Concretely: proposal 1 already sits at the terminal status
published, yet a further accept click overwrites its status to accepted and
emits only a keyboard edit, no notice and no refusal. -/
theorem c1_counterexample :
    (get_proposal ((cb_mod_actions
        (DB.mk [(7, mkUser 0 0 false)] [(1, mkProposal "published")] 2)
        "accept" 1 false none).1) 1).map ProposalRow.status = some "accepted"
    ∧ (get_proposal (DB.mk [(7, mkUser 0 0 false)] [(1, mkProposal "published")] 2) 1).map
        ProposalRow.status = some "published"
    ∧ (cb_mod_actions (DB.mk [(7, mkUser 0 0 false)] [(1, mkProposal "published")] 2)
        "accept" 1 false none).2 = [Eff.editCard (Kb.repButtons 1)] := by
  decide

/-- Claim C1, amended: set_proposal_status_and_mod takes no expected
from-status and returns no boolean; it unconditionally overwrites status,
mod_id, mod_action and mod_action_param of the addressed proposal whatever
its current status, and the moderator-action handler applies its branch with
no already-processed notice.  There is no compare-and-set race guard. -/
theorem c1_unconditional_overwrite (db : DB) (pid : Nat) (status : String)
    (m : Option Nat) (a p : Option String) (prop : ProposalRow)
    (h : get_proposal db pid = some prop) :
    get_proposal (set_proposal_status_and_mod db pid status m a p) pid =
      some { prop with
              status := status,
              mod_id := m,
              mod_action := a,
              mod_action_param := p } := by
  unfold set_proposal_status_and_mod
  rw [get_proposal_updateProposal, h]
  rfl

/-- Claim C1, witness for the amended theorem. -/
theorem c1_unconditional_overwrite_witness :
    get_proposal (set_proposal_status_and_mod
        (DB.mk [] [(1, mkProposal "published")] 2) 1 "declined" (some 9)
        (some "decline") (some "0")) 1 =
      some { mkProposal "published" with
              status := "declined",
              mod_id := some 9,
              mod_action := some "decline",
              mod_action_param := some "0" } :=
  c1_unconditional_overwrite (DB.mk [] [(1, mkProposal "published")] 2) 1
    "declined" (some 9) (some "decline") (some "0") (mkProposal "published")
    (by decide)

/-! ## Claim C2: reputation applied once per decision -/

/-- Claim C2, counterexample.  The claim says the reputation delta of a
decided proposal is applied exactly once no matter how often the reward
callback is delivered.  Concretely: delivering the +2 reward callback twice
for the same proposal leaves the submitter at reputation 4, not 2, while the
proposal sits at the decided status published. -/
theorem c2_counterexample :
    (get_user ((cb_rep_buttons
        ((cb_rep_buttons (DB.mk [(7, mkUser 0 0 false)] [(1, mkProposal "pending")] 2)
          2 1 99).1) 2 1 99).1) 7).map UserRow.reputation = some 4
    ∧ (get_proposal ((cb_rep_buttons
        ((cb_rep_buttons (DB.mk [(7, mkUser 0 0 false)] [(1, mkProposal "pending")] 2)
          2 1 99).1) 2 1 99).1) 1).map ProposalRow.status = some "published"
    ∧ (4 : Int) ≠ 2 := by
  decide

/-- Claim C2, amended: the reward callback applies the reputation delta once
per delivery, not once per proposal decision; every delivery adds the amount
to the submitter's reputation, increments their accepted count and rewrites
the proposal row, with no guard against retried or raced deliveries. -/
theorem c2_delta_per_delivery (db : DB) (amount : Int) (pid mod_id : Nat)
    (prop : ProposalRow) (urow : UserRow)
    (hp : get_proposal db pid = some prop)
    (hu : get_user db prop.user_id = some urow) :
    get_user (cb_rep_buttons db amount pid mod_id).1 prop.user_id =
      some { urow with
              reputation := urow.reputation + amount,
              accepted_count := urow.accepted_count + 1 }
    ∧ get_proposal (cb_rep_buttons db amount pid mod_id).1 pid =
      some { prop with
              status := "published",
              mod_id := some mod_id,
              mod_action := some "accept",
              mod_action_param := some (toString amount) } := by
  simp only [cb_rep_buttons, hp]
  constructor
  · simp only [set_proposal_status_and_mod, increment_accepted, add_reputation,
      get_user_updateProposal, get_user_updateUser, hu, Option.map_some']
  · simp only [set_proposal_status_and_mod, increment_accepted, add_reputation,
      get_proposal_updateProposal, get_proposal_updateUser, hp, Option.map_some']

/-- Claim C2, witness for the amended theorem. -/
theorem c2_delta_per_delivery_witness :
    get_user ((cb_rep_buttons (DB.mk [(7, mkUser 0 0 false)] [(1, mkProposal "pending")] 2)
        2 1 99).1) 7 =
      some { mkUser 0 0 false with reputation := 2, accepted_count := 1 } :=
  (c2_delta_per_delivery (DB.mk [(7, mkUser 0 0 false)] [(1, mkProposal "pending")] 2)
    2 1 99 (mkProposal "pending") (mkUser 0 0 false) (by decide) (by decide)).1

/-! ## Claim C3: the status graph -/

/-- Claim C3, counterexample.  The claim says that once a terminal status is
stored no operation ever changes the proposal's status again.  Concretely:
proposal 1 sits at the terminal status declined, yet a reward callback moves
it to published. -/
theorem c3_counterexample :
    (get_proposal (DB.mk [(7, mkUser 0 0 false)] [(1, mkProposal "declined")] 2) 1).map
        ProposalRow.status = some "declined"
    ∧ (get_proposal ((cb_rep_buttons
        (DB.mk [(7, mkUser 0 0 false)] [(1, mkProposal "declined")] 2) 2 1 99).1) 1).map
        ProposalRow.status = some "published" := by
  decide

/-- Claim C3, amended: status writes are unguarded.  Whatever status a
proposal currently holds, an accept click stores accepted, a penalty pick
stores declined (so the decline flow skips any stored intermediate state), a
duration pick stores banned, and a reward pick stores published; terminal
statuses are therefore not absorbing and the stored sequence need not follow
the claimed graph. -/
theorem c3_unguarded_status_writes (db : DB) (pid mod_id : Nat) (amount : Int)
    (now nowFmt : Int) (chan : Bool) (ctext : Option String) (prop : ProposalRow)
    (hp : get_proposal db pid = some prop) :
    (get_proposal (cb_mod_actions db "accept" pid chan ctext).1 pid).map
        ProposalRow.status = some "accepted"
    ∧ (get_proposal (cb_decline_penalty db "0" pid mod_id).1 pid).map
        ProposalRow.status = some "declined"
    ∧ (get_proposal (cb_decline_penalty db "1" pid mod_id).1 pid).map
        ProposalRow.status = some "declined"
    ∧ (get_proposal (cb_ban_duration db "24h" pid mod_id now nowFmt).1 pid).map
        ProposalRow.status = some "banned"
    ∧ (get_proposal (cb_rep_buttons db amount pid mod_id).1 pid).map
        ProposalRow.status = some "published" := by
  refine ⟨?_, ?_, ?_, ?_, ?_⟩
  · simp [cb_mod_actions, hp, set_proposal_status_and_mod, get_proposal_updateProposal]
  · have h0 : pyInt? "0" = some 0 := by decide
    simp [cb_decline_penalty, h0, hp, set_proposal_status_and_mod, increment_declined,
      get_proposal_updateProposal, get_proposal_updateUser]
  · have h1 : pyInt? "1" = some 1 := by decide
    simp [cb_decline_penalty, h1, hp, set_proposal_status_and_mod, increment_declined,
      add_reputation, get_proposal_updateProposal, get_proposal_updateUser]
  · simp [cb_ban_duration, hp, set_proposal_status_and_mod, set_banned_until,
      get_proposal_updateProposal, get_proposal_updateUser]
  · simp [cb_rep_buttons, hp, set_proposal_status_and_mod, increment_accepted,
      add_reputation, get_proposal_updateProposal, get_proposal_updateUser]

/-- Claim C3, witness for the amended theorem. -/
theorem c3_unguarded_status_writes_witness :
    (get_proposal ((cb_mod_actions (DB.mk [(7, mkUser 0 0 false)]
        [(1, mkProposal "banned")] 2) "accept" 1 false none).1) 1).map
      ProposalRow.status = some "accepted" :=
  (c3_unguarded_status_writes (DB.mk [(7, mkUser 0 0 false)] [(1, mkProposal "banned")] 2)
    1 99 2 0 0 false none (mkProposal "banned") (by decide)).1

/-! ## Claim C6: message-reference recording -/

/-- Claim C6, counterexample.  The claim says recording a surface role that
already holds a value is rejected as an error rather than silently
overwriting.  Concretely: proposal 1 already records header message 5;
recording header message 7 silently replaces it (the operation has no error
outcome at all). -/
theorem c6_counterexample :
    (get_proposal (update_proposal_ids
        (DB.mk [] [(1, { mkProposal "pending" with group_header_msg_id := some 5 })] 2)
        1 (some 7) none none) 1).map ProposalRow.group_header_msg_id = some (some 7)
    ∧ some (some 7) ≠ some (some (5 : Nat)) := by
  decide

/-- Claim C6, amended: message-reference recording is last-write-wins, not
write-once.  Every argument that is provided overwrites the stored column
unconditionally and without any error; an omitted (None) argument leaves the
column unchanged. -/
theorem c6_last_write_wins (db : DB) (pid : Nat) (hdr post modm : Option Nat)
    (prop : ProposalRow) (hp : get_proposal db pid = some prop) :
    get_proposal (update_proposal_ids db pid hdr post modm) pid =
      some { prop with
              group_header_msg_id := hdr.or prop.group_header_msg_id,
              group_post_msg_id := post.or prop.group_post_msg_id,
              group_mod_msg_id := modm.or prop.group_mod_msg_id } := by
  unfold update_proposal_ids
  rw [get_proposal_updateProposal, hp]
  cases hdr <;> cases post <;> cases modm <;> rfl

/-- Claim C6, witness for the amended theorem. -/
theorem c6_last_write_wins_witness :
    get_proposal (update_proposal_ids
        (DB.mk [] [(1, { mkProposal "pending" with group_header_msg_id := some 5 })] 2)
        1 (some 7) none none) 1 =
      some { mkProposal "pending" with
              group_header_msg_id := some 7,
              group_post_msg_id := none,
              group_mod_msg_id := none } :=
  c6_last_write_wins
    (DB.mk [] [(1, { mkProposal "pending" with group_header_msg_id := some 5 })] 2)
    1 (some 7) none none
    { mkProposal "pending" with group_header_msg_id := some 5 } (by decide)

/-! ## Claim C8: reputation display toggle -/

/-- Claim C8: when the card owner presses the toggle, a request to turn the
reputation display on (no title currently shown) is refused whenever the
current reputation is below 25, with no title change attempted; a request to
turn the display off (title currently shown) proceeds to removal regardless
of the reputation value. -/
theorem c8_toggle_rep_floor (caller target : Nat) (row : Option UserRow)
    (hasTitle apiOk : Bool) (hown : caller = target) :
    (hasTitle = false → userRep row < 25 →
      cb_toggle_rep caller target row hasTitle apiOk = ToggleResult.refusedLowRep)
    ∧ (hasTitle = true →
      cb_toggle_rep caller target row hasTitle apiOk =
        (if apiOk then ToggleResult.removed else ToggleResult.removeFailed)) := by
  subst hown
  constructor
  · intro hT hrep
    subst hT
    simp [cb_toggle_rep, hrep]
  · intro hT
    subst hT
    simp [cb_toggle_rep]

/-- Claim C8, witness. -/
theorem c8_toggle_rep_floor_witness :
    cb_toggle_rep 5 5 (some (mkUser 10 0 false)) false true =
      ToggleResult.refusedLowRep :=
  (c8_toggle_rep_floor 5 5 (some (mkUser 10 0 false)) false true rfl).1 rfl (by decide)

/-! ## Claim C9: banned user in submission mode -/

/-- Claim C9: a user in propose mode whose ban lies in the future gets only
the ban notice with the remaining time, their propose flag is cleared, and
no proposal row is created and nothing is sent to the moderator group. -/
theorem c9_banned_submitter (db : DB) (uid chatId msgId : Nat) (now : Int)
    (content : MsgContent) (pred attach : Bool) (hId pId : Nat) (row : UserRow)
    (hu : get_user db uid = some row) (hip : row.in_propose = true)
    (hnow : 0 ≤ now) (hban : now < row.banned_until) :
    handle_any_message db uid chatId msgId now content pred attach hId pId =
      (set_in_propose db uid false,
       [Eff.replyUser (bannedNoticeText row.lang
          (format_remaining row.banned_until now))])
    ∧ (set_in_propose db uid false).proposals = db.proposals
    ∧ get_user (set_in_propose db uid false) uid =
        some { row with in_propose := false } := by
  have hens := ensure_user_row_existing db uid row hu
  have hne : row.banned_until ≠ 0 := by omega
  refine ⟨?_, rfl, ?_⟩
  · simp [handle_any_message, hens, hu, hip, hne, hban]
  · simp [set_in_propose, get_user_updateUser, hu]

/-- Claim C9, witness. -/
theorem c9_banned_submitter_witness :
    handle_any_message (DB.mk [(7, mkUser 0 100 true)] [] 1) 7 70 700 50
        (MsgContent.text [] []) true true 0 0 =
      (set_in_propose (DB.mk [(7, mkUser 0 100 true)] [] 1) 7 false,
       [Eff.replyUser (bannedNoticeText "ru" (format_remaining 100 50))]) :=
  (c9_banned_submitter (DB.mk [(7, mkUser 0 100 true)] [] 1) 7 70 700 50
    (MsgContent.text [] []) true true 0 0 (mkUser 0 100 true)
    (by decide) (by decide) (by decide) (by decide)).1

/-! ## Claim C5: ban durations and the remaining-time notification -/

/-- Claim C5: picking a duration sets the submitter ban to now plus exactly
43200, 86400, 259200 or 604800 seconds (12h, 24h, 3d, 7d), permanent being
the far-future sentinel 2147483647; the submitter is notified with the
remaining time in the days-hours-minutes format, and for 24h, with the
formatting clock one second past the setting clock, the shown remaining time
is 0 days, 23 hours, 59 minutes. -/
theorem c5_ban_durations (db : DB) (pid mod_id : Nat) (prop : ProposalRow)
    (urow : UserRow) (now nowFmt : Int)
    (hp : get_proposal db pid = some prop)
    (hu : get_user db prop.user_id = some urow)
    (hnow : 0 ≤ now) :
    (get_user (cb_ban_duration db "12h" pid mod_id now nowFmt).1 prop.user_id =
      some { urow with banned_until := now + 43200 })
    ∧ (get_user (cb_ban_duration db "24h" pid mod_id now nowFmt).1 prop.user_id =
      some { urow with banned_until := now + 86400 })
    ∧ (get_user (cb_ban_duration db "3d" pid mod_id now nowFmt).1 prop.user_id =
      some { urow with banned_until := now + 259200 })
    ∧ (get_user (cb_ban_duration db "7d" pid mod_id now nowFmt).1 prop.user_id =
      some { urow with banned_until := now + 604800 })
    ∧ (get_user (cb_ban_duration db "forever" pid mod_id now nowFmt).1 prop.user_id =
      some { urow with banned_until := 2147483647 })
    ∧ ((cb_ban_duration db "24h" pid mod_id now nowFmt).2 =
      [Eff.sendUser prop.user_chat_id
         (bannedNoticeText urow.lang (format_remaining (now + 86400) nowFmt)),
       Eff.editCard (Kb.finalChoice "🚫 Бан" pid)])
    ∧ format_remaining (now + 86400) (now + 1) = "0д, 23ч, 59м" := by
  refine ⟨?_, ?_, ?_, ?_, ?_, ?_, ?_⟩
  · simp [cb_ban_duration, hp, hu, set_banned_until, set_proposal_status_and_mod,
      get_user_updateProposal, get_user_updateUser]
  · simp [cb_ban_duration, hp, hu, set_banned_until, set_proposal_status_and_mod,
      get_user_updateProposal, get_user_updateUser]
  · simp [cb_ban_duration, hp, hu, set_banned_until, set_proposal_status_and_mod,
      get_user_updateProposal, get_user_updateUser]
  · simp [cb_ban_duration, hp, hu, set_banned_until, set_proposal_status_and_mod,
      get_user_updateProposal, get_user_updateUser]
  · simp [cb_ban_duration, hp, hu, set_banned_until, set_proposal_status_and_mod,
      get_user_updateProposal, get_user_updateUser]
  · simp [cb_ban_duration, hp, hu, set_banned_until, set_proposal_status_and_mod,
      get_user_updateProposal, get_user_updateUser]
  · have h1 : ¬ ((now + 86400 : Int) ≤ 0) := by omega
    have h3 : (now + 86400 : Int) - (now + 1) = 86399 := by ring
    simp only [format_remaining, h3, if_neg h1]
    decide

/-- Claim C5, witness. -/
theorem c5_ban_durations_witness :
    format_remaining (0 + 86400) (0 + 1) = "0д, 23ч, 59м" :=
  (c5_ban_durations (DB.mk [(7, mkUser 0 0 false)] [(1, mkProposal "pending")] 2)
    1 99 (mkProposal "pending") (mkUser 0 0 false) 0 1
    (by decide) (by decide) (by decide)).2.2.2.2.2.2

/-! ## Claim C7: normalizer round-trip on the concrete input -/

/-- Claim C7: normalizing the text Hello world with one bold run at offset 0
length 5 yields the markup with the bold wrapper around Hello; stripping the
wrapper tags and undoing the escaping reproduces Hello world verbatim; and
the combined submission markup is that markup followed by exactly two
newlines and the fixed promotional footer. -/
theorem c7_normalizer_roundtrip :
    entities_to_html "Hello world".data
        [MessageEntity.mk 0 5 "bold" [] [] none] = "<b>Hello</b> world".data
    ∧ unescapeHtml (stripWrapperTags (entities_to_html "Hello world".data
        [MessageEntity.mk 0 5 "bold" [] [] none])) = "Hello world".data
    ∧ combined_text_html "Hello world".data
        [MessageEntity.mk 0 5 "bold" [] [] none] =
      "<b>Hello</b> world".data ++ "\n\n".data ++ APPENDED_LINKS_HTML.data := by
  decide

/-! ## Claim C4: ban sweep round-trip -/

theorem mem_of_dbLookup {α : Type} (l : List (Nat × α)) (k : Nat) (v : α)
    (h : dbLookup l k = some v) : (k, v) ∈ l := by
  induction l with
  | nil => simp [dbLookup] at h
  | cons p rest ih =>
    by_cases hp : p.1 = k
    · rcases p with ⟨pk, pv⟩
      simp only at hp
      subst hp
      simp [dbLookup] at h
      subst h
      exact List.mem_cons_self _ _
    · simp only [dbLookup, if_neg hp] at h
      exact List.mem_cons_of_mem _ (ih h)

theorem eq_of_mem_nodup_keys {α : Type} (l : List (Nat × α))
    (hnd : (l.map Prod.fst).Nodup) (p q : Nat × α)
    (hp : p ∈ l) (hq : q ∈ l) (h : p.1 = q.1) : p = q := by
  induction l with
  | nil => cases hp
  | cons a rest ih =>
    rw [List.map_cons, List.nodup_cons] at hnd
    obtain ⟨ha, hnd2⟩ := hnd
    rcases List.mem_cons.mp hp with hp1 | hp1 <;>
      rcases List.mem_cons.mp hq with hq1 | hq1
    · rw [hp1, hq1]
    · exfalso
      apply ha
      rw [hp1] at h
      rw [h]
      exact List.mem_map_of_mem Prod.fst hq1
    · exfalso
      apply ha
      rw [hq1] at h
      rw [← h]
      exact List.mem_map_of_mem Prod.fst hp1
    · exact ih hnd2 hp1 hq1

theorem get_user_set_banned_until_self (db : DB) (uid : Nat) (v : Int) :
    get_user (set_banned_until db uid v) uid =
      (get_user db uid).map (fun u => { u with banned_until := v }) :=
  get_user_updateUser db uid _

theorem get_user_set_banned_until_ne (db : DB) (uid uid2 : Nat) (v : Int)
    (h : uid2 ≠ uid) :
    get_user (set_banned_until db uid v) uid2 = get_user db uid2 :=
  get_user_updateUser_ne db uid uid2 _ h

theorem foldl_clear_not_mem (rows : List (Nat × UserRow)) (db : DB) (uid : Nat)
    (h : uid ∉ rows.map Prod.fst) :
    get_user (rows.foldl (fun d p => set_banned_until d p.1 0) db) uid =
      get_user db uid := by
  induction rows generalizing db with
  | nil => rfl
  | cons p rest ih =>
    rw [List.map_cons, List.mem_cons] at h
    push_neg at h
    obtain ⟨h1, h2⟩ := h
    rw [List.foldl_cons, ih _ h2]
    exact get_user_set_banned_until_ne db p.1 uid 0 h1

theorem foldl_clear_mem (l1 l2 : List (Nat × UserRow)) (r : UserRow) (db : DB)
    (uid : Nat) (row : UserRow)
    (h1 : uid ∉ l1.map Prod.fst) (h2 : uid ∉ l2.map Prod.fst)
    (hu : get_user db uid = some row) :
    get_user ((l1 ++ (uid, r) :: l2).foldl
        (fun d p => set_banned_until d p.1 0) db) uid =
      some { row with banned_until := 0 } := by
  rw [List.foldl_append, List.foldl_cons]
  rw [foldl_clear_not_mem l2 _ uid h2]
  rw [get_user_set_banned_until_self]
  rw [foldl_clear_not_mem l1 db uid h1, hu]
  rfl

theorem users_keys_set_banned_until (db : DB) (uid : Nat) (v : Int) :
    (set_banned_until db uid v).users.map Prod.fst = db.users.map Prod.fst := by
  simp only [set_banned_until, updateUser, dbUpdate, List.map_map]
  induction db.users with
  | nil => rfl
  | cons p rest ih =>
    simp only [List.map_cons, ih]
    by_cases h : p.1 = uid <;> simp [h]

theorem users_keys_foldl_clear (rows : List (Nat × UserRow)) (db : DB) :
    ((rows.foldl (fun d p => set_banned_until d p.1 0) db)).users.map Prod.fst =
      db.users.map Prod.fst := by
  induction rows generalizing db with
  | nil => rfl
  | cons p rest ih =>
    rw [List.foldl_cons, ih, users_keys_set_banned_until]

theorem sendUser_not_mem_notices (rows : List (Nat × UserRow)) (uid : Nat)
    (t : String) (h : uid ∉ rows.map Prod.fst) :
    Eff.sendUser uid t ∉
      rows.map (fun p => Eff.sendUser p.1 (unbannedNoticeText p.2.lang)) := by
  intro hmem
  obtain ⟨p, hp, heq⟩ := List.mem_map.mp hmem
  injection heq with e1 e2
  exact h (List.mem_map.mpr ⟨p, hp, e1⟩)

theorem notices_count_one (l1 l2 : List (Nat × UserRow)) (uid : Nat) (r : UserRow)
    (h1 : uid ∉ l1.map Prod.fst) (h2 : uid ∉ l2.map Prod.fst) :
    ((l1 ++ (uid, r) :: l2).map
        (fun p => Eff.sendUser p.1 (unbannedNoticeText p.2.lang))).count
      (Eff.sendUser uid (unbannedNoticeText r.lang)) = 1 := by
  rw [List.map_append, List.count_append, List.map_cons, List.count_cons]
  have c1 : (l1.map (fun p => Eff.sendUser p.1 (unbannedNoticeText p.2.lang))).count
      (Eff.sendUser uid (unbannedNoticeText r.lang)) = 0 :=
    List.count_eq_zero.mpr (sendUser_not_mem_notices l1 uid _ h1)
  have c2 : (l2.map (fun p => Eff.sendUser p.1 (unbannedNoticeText p.2.lang))).count
      (Eff.sendUser uid (unbannedNoticeText r.lang)) = 0 :=
    List.count_eq_zero.mpr (sendUser_not_mem_notices l2 uid _ h2)
  simp [c1, c2]

/-- Claim C4: for a user banned until n + 3600 (with distinct user rows), the
sweep tick at n + 3599 leaves the row untouched and sends that user nothing;
the tick at n + 3601 clears banned_until to 0 and sends the ban-lifted notice
exactly once; and after the clearing tick no later tick ever sends that user
a notice again, so the notice is sent exactly once for the expiry event. -/
theorem c4_ban_sweep_roundtrip (db : DB) (uid : Nat) (row : UserRow) (n : Int)
    (hnd : (db.users.map Prod.fst).Nodup)
    (hu : get_user db uid = some row)
    (hbu : row.banned_until = n + 3600)
    (hn : 0 ≤ n) :
    (get_user (unban_watcher_tick db (n + 3599)).1 uid = some row
      ∧ ∀ t : String, Eff.sendUser uid t ∉ (unban_watcher_tick db (n + 3599)).2)
    ∧ (get_user (unban_watcher_tick db (n + 3601)).1 uid =
        some { row with banned_until := 0 }
      ∧ (unban_watcher_tick db (n + 3601)).2.count
          (Eff.sendUser uid (unbannedNoticeText row.lang)) = 1
      ∧ ∀ (m : Int) (t : String),
          Eff.sendUser uid t ∉
            (unban_watcher_tick (unban_watcher_tick db (n + 3601)).1 m).2) := by
  have hmem : (uid, row) ∈ db.users := mem_of_dbLookup db.users uid row hu
  -- the early tick selects no row for uid
  have hearly : uid ∉ (db.users.filter
      (fun p => decide (0 < p.2.banned_until) &&
        decide (p.2.banned_until ≤ n + 3599))).map Prod.fst := by
    intro hin
    obtain ⟨p, hp, hfst⟩ := List.mem_map.mp hin
    have hpu := (List.mem_filter.mp hp).1
    have hcond := (List.mem_filter.mp hp).2
    have hpe : p = (uid, row) :=
      eq_of_mem_nodup_keys db.users hnd p (uid, row) hpu hmem (by rw [hfst])
    rw [hpe] at hcond
    simp only [Bool.and_eq_true, decide_eq_true_eq] at hcond
    omega
  -- the expiring tick selects exactly the row of uid
  have hsel : (uid, row) ∈ db.users.filter
      (fun p => decide (0 < p.2.banned_until) &&
        decide (p.2.banned_until ≤ n + 3601)) := by
    refine List.mem_filter.mpr ⟨hmem, ?_⟩
    simp only [Bool.and_eq_true, decide_eq_true_eq]
    omega
  have hnd2 : ((db.users.filter
      (fun p => decide (0 < p.2.banned_until) &&
        decide (p.2.banned_until ≤ n + 3601))).map Prod.fst).Nodup :=
    List.Nodup.sublist ((List.filter_sublist _).map Prod.fst) hnd
  obtain ⟨l1, l2, hsplit⟩ := List.append_of_mem hsel
  have hnm : uid ∉ l1.map Prod.fst ∧ uid ∉ l2.map Prod.fst := by
    rw [hsplit, List.map_append, List.map_cons] at hnd2
    rcases List.nodup_append.mp hnd2 with ⟨hA, hB, hC⟩
    refine ⟨fun hin => hC hin (List.mem_cons_self _ _), (List.nodup_cons.mp hB).1⟩
  have hb1 : get_user (unban_watcher_tick db (n + 3601)).1 uid =
      some { row with banned_until := 0 } := by
    show get_user ((db.users.filter
        (fun p => decide (0 < p.2.banned_until) &&
          decide (p.2.banned_until ≤ n + 3601))).foldl
        (fun d p => set_banned_until d p.1 0) db) uid = _
    rw [hsplit]
    exact foldl_clear_mem l1 l2 row db uid row hnm.1 hnm.2 hu
  refine ⟨⟨?_, ?_⟩, hb1, ?_, ?_⟩
  · show get_user ((db.users.filter
        (fun p => decide (0 < p.2.banned_until) &&
          decide (p.2.banned_until ≤ n + 3599))).foldl
        (fun d p => set_banned_until d p.1 0) db) uid = some row
    rw [foldl_clear_not_mem _ db uid hearly]
    exact hu
  · intro t
    exact sendUser_not_mem_notices _ uid t hearly
  · show ((db.users.filter
        (fun p => decide (0 < p.2.banned_until) &&
          decide (p.2.banned_until ≤ n + 3601))).map
        (fun p => Eff.sendUser p.1 (unbannedNoticeText p.2.lang))).count
        (Eff.sendUser uid (unbannedNoticeText row.lang)) = 1
    rw [hsplit]
    exact notices_count_one l1 l2 uid row hnm.1 hnm.2
  · intro m t
    have hkeys : (unban_watcher_tick db (n + 3601)).1.users.map Prod.fst =
        db.users.map Prod.fst := users_keys_foldl_clear _ db
    have hnd3 : ((unban_watcher_tick db (n + 3601)).1.users.map Prod.fst).Nodup := by
      rw [hkeys]; exact hnd
    have hmem2 : (uid, { row with banned_until := 0 }) ∈
        (unban_watcher_tick db (n + 3601)).1.users :=
      mem_of_dbLookup _ uid _ hb1
    have hnot : uid ∉ ((unban_watcher_tick db (n + 3601)).1.users.filter
        (fun p => decide (0 < p.2.banned_until) &&
          decide (p.2.banned_until ≤ m))).map Prod.fst := by
      intro hin
      obtain ⟨p, hp, hfst⟩ := List.mem_map.mp hin
      have hpu := (List.mem_filter.mp hp).1
      have hcond := (List.mem_filter.mp hp).2
      have hpe : p = (uid, { row with banned_until := 0 }) :=
        eq_of_mem_nodup_keys _ hnd3 p _ hpu hmem2 (by rw [hfst])
      rw [hpe] at hcond
      simp at hcond
    exact sendUser_not_mem_notices _ uid t hnot

/-- Claim C4, witness. -/
theorem c4_ban_sweep_roundtrip_witness :
    get_user (unban_watcher_tick (DB.mk [(1, mkUser 0 3600 false)] [] 1) (0 + 3601)).1 1 =
      some { mkUser 0 3600 false with banned_until := 0 } :=
  (c4_ban_sweep_roundtrip (DB.mk [(1, mkUser 0 3600 false)] [] 1) 1
    (mkUser 0 3600 false) 0 (by decide) (by decide) (by decide) (by decide)).2.1

/-! ## Claim C10: escaping in the normalizer -/

theorem count_replaceChar_self (c : Char) (r : List Char) (hc : c ∉ r)
    (s : List Char) : (replaceChar c r s).count c = 0 := by
  induction s with
  | nil => rfl
  | cons ch rest ih =>
    simp only [replaceChar, List.count_append]
    by_cases h : ch = c
    · rw [if_pos h]
      simp [List.count_eq_zero.mpr hc, ih]
    · rw [if_neg h]
      simp [List.count_cons, h, ih]

theorem count_replaceChar_other (c c2 : Char) (r : List Char) (h1 : c2 ≠ c)
    (h2 : c2 ∉ r) (s : List Char) :
    (replaceChar c r s).count c2 = s.count c2 := by
  induction s with
  | nil => rfl
  | cons ch rest ih =>
    simp only [replaceChar, List.count_append]
    by_cases h : ch = c
    · rw [if_pos h]
      subst h
      simp [List.count_eq_zero.mpr h2, ih, List.count_cons, Ne.symm h1]
    · rw [if_neg h]
      simp only [List.count_cons, List.count_nil, ih]
      omega

theorem count_escape_lt (s : List Char) : (escape_html s).count '<' = 0 := by
  unfold escape_html
  rw [count_replaceChar_other '>' '<' _ (by decide) (by decide)]
  exact count_replaceChar_self '<' _ (by decide) _

theorem count_escape_gt (s : List Char) : (escape_html s).count '>' = 0 := by
  unfold escape_html
  exact count_replaceChar_self '>' _ (by decide) _

theorem digitChar_ne_angle : ∀ d, d < 10 → digitChar d ≠ '<' ∧ digitChar d ≠ '>' := by
  decide

theorem natDigits_digit (n : Nat) : ∀ c ∈ natDigits n, ∃ d, d < 10 ∧ c = digitChar d := by
  induction n using Nat.strong_induction_on with
  | _ n ih =>
    rw [natDigits]
    by_cases h : n < 10
    · rw [if_pos h]
      intro c hc
      simp only [List.mem_singleton] at hc
      exact ⟨n, h, hc⟩
    · rw [if_neg h]
      intro c hc
      rcases List.mem_append.mp hc with hc | hc
      · exact ih (n / 10) (Nat.div_lt_self (by omega) (by omega)) c hc
      · simp only [List.mem_singleton] at hc
        exact ⟨n % 10, Nat.mod_lt _ (by omega), hc⟩

theorem count_natDigits_lt (n : Nat) : (natDigits n).count '<' = 0 := by
  rw [List.count_eq_zero]
  intro hmem
  obtain ⟨d, hd, he⟩ := natDigits_digit n _ hmem
  exact (digitChar_ne_angle d hd).1 he.symm

theorem count_natDigits_gt (n : Nat) : (natDigits n).count '>' = 0 := by
  rw [List.count_eq_zero]
  intro hmem
  obtain ⟨d, hd, he⟩ := natDigits_digit n _ hmem
  exact (digitChar_ne_angle d hd).2 he.symm

theorem count_renderEntity_lt (seg : List Char) (e : MessageEntity) :
    (renderEntity seg e).count '<' = tagAngles e := by
  unfold renderEntity tagAngles
  split_ifs <;>
    first
      | (simp only [List.count_append, count_escape_lt]; decide)
      | (cases e.user <;>
          simp only [List.count_append, count_escape_lt, count_natDigits_lt] <;> decide)

theorem count_renderEntity_gt (seg : List Char) (e : MessageEntity) :
    (renderEntity seg e).count '>' = tagAngles e := by
  unfold renderEntity tagAngles
  split_ifs <;>
    first
      | (simp only [List.count_append, count_escape_gt]; decide)
      | (cases e.user <;>
          simp only [List.count_append, count_escape_gt, count_natDigits_gt] <;> decide)

theorem count_entLoop_lt (text : List Char) (l : List MessageEntity) (last : Nat) :
    (entLoop text l last).count '<' = (l.map tagAngles).sum := by
  induction l generalizing last with
  | nil =>
    simp only [entLoop, List.map_nil, List.sum_nil]
    split_ifs <;> simp [count_escape_lt]
  | cons e rest ih =>
    simp only [entLoop, List.count_append, List.map_cons, List.sum_cons,
      count_renderEntity_lt, ih]
    split_ifs <;> simp [count_escape_lt]

theorem count_entLoop_gt (text : List Char) (l : List MessageEntity) (last : Nat) :
    (entLoop text l last).count '>' = (l.map tagAngles).sum := by
  induction l generalizing last with
  | nil =>
    simp only [entLoop, List.map_nil, List.sum_nil]
    split_ifs <;> simp [count_escape_gt]
  | cons e rest ih =>
    simp only [entLoop, List.count_append, List.map_cons, List.sum_cons,
      count_renderEntity_gt, ih]
    split_ifs <;> simp [count_escape_gt]

theorem insertByOffset_perm (e : MessageEntity) (l : List MessageEntity) :
    List.Perm (insertByOffset e l) (e :: l) := by
  induction l with
  | nil => exact List.Perm.refl _
  | cons f rest ih =>
    simp only [insertByOffset]
    by_cases h : f.offset < e.offset
    · rw [if_pos h]
      exact (ih.cons f).trans (List.Perm.swap e f rest)
    · rw [if_neg h]

theorem sortByOffset_perm (l : List MessageEntity) : List.Perm (sortByOffset l) l := by
  induction l with
  | nil => exact List.Perm.refl _
  | cons e rest ih =>
    exact (insertByOffset_perm e (sortByOffset rest)).trans (ih.cons e)

theorem replaceChar_append (c : Char) (r s t : List Char) :
    replaceChar c r (s ++ t) = replaceChar c r s ++ replaceChar c r t := by
  induction s with
  | nil => rfl
  | cons ch rest ih => simp [replaceChar, ih]

theorem replaceChar_not_mem (c : Char) (r : List Char) (s : List Char)
    (h : c ∉ s) : replaceChar c r s = s := by
  induction s with
  | nil => rfl
  | cons ch rest ih =>
    rw [List.mem_cons] at h
    push_neg at h
    simp [replaceChar, Ne.symm h.1, ih h.2]

theorem escape_cons (c : Char) (s : List Char) :
    escape_html (c :: s) = escChar c ++ escape_html s := by
  unfold escape_html escChar
  by_cases h1 : c = '&'
  · subst h1
    rw [show replaceChar '&' ("&amp;".data) ('&' :: s)
        = "&amp;".data ++ replaceChar '&' ("&amp;".data) s from by simp [replaceChar]]
    rw [replaceChar_append, replaceChar_append,
      replaceChar_not_mem '<' _ ("&amp;".data) (by decide),
      replaceChar_not_mem '>' _ ("&amp;".data) (by decide)]
    simp
  · by_cases h2 : c = '<'
    · subst h2
      rw [show replaceChar '&' ("&amp;".data) ('<' :: s)
          = '<' :: replaceChar '&' ("&amp;".data) s from by simp [replaceChar]]
      rw [show replaceChar '<' ("&lt;".data) ('<' :: replaceChar '&' ("&amp;".data) s)
          = "&lt;".data ++ replaceChar '<' ("&lt;".data) (replaceChar '&' ("&amp;".data) s)
          from by simp [replaceChar]]
      rw [replaceChar_append, replaceChar_not_mem '>' _ ("&lt;".data) (by decide)]
      simp [h1]
    · by_cases h3 : c = '>'
      · subst h3
        rw [show replaceChar '&' ("&amp;".data) ('>' :: s)
            = '>' :: replaceChar '&' ("&amp;".data) s from by simp [replaceChar]]
        rw [show replaceChar '<' ("&lt;".data)
              ('>' :: replaceChar '&' ("&amp;".data) s)
            = '>' :: replaceChar '<' ("&lt;".data) (replaceChar '&' ("&amp;".data) s)
            from by simp [replaceChar]]
        rw [show replaceChar '>' ("&gt;".data)
              ('>' :: replaceChar '<' ("&lt;".data) (replaceChar '&' ("&amp;".data) s))
            = "&gt;".data ++ replaceChar '>' ("&gt;".data)
                (replaceChar '<' ("&lt;".data) (replaceChar '&' ("&amp;".data) s))
            from by simp [replaceChar]]
        simp [h1, h2]
      · simp [replaceChar, h1, h2, h3]

theorem unescape_escape (s : List Char) : unescapeHtml (escape_html s) = s := by
  induction s with
  | nil => rfl
  | cons c rest ih =>
    rw [escape_cons]
    by_cases h1 : c = '&'
    · subst h1
      show unescapeHtml ('&' :: 'a' :: 'm' :: 'p' :: ';' :: escape_html rest)
          = '&' :: rest
      rw [show unescapeHtml ('&' :: 'a' :: 'm' :: 'p' :: ';' :: escape_html rest)
          = '&' :: unescapeHtml (escape_html rest) from rfl, ih]
    · by_cases h2 : c = '<'
      · subst h2
        show unescapeHtml ('&' :: 'l' :: 't' :: ';' :: escape_html rest)
            = '<' :: rest
        rw [show unescapeHtml ('&' :: 'l' :: 't' :: ';' :: escape_html rest)
            = '<' :: unescapeHtml (escape_html rest) from rfl, ih]
      · by_cases h3 : c = '>'
        · subst h3
          show unescapeHtml ('&' :: 'g' :: 't' :: ';' :: escape_html rest)
              = '>' :: rest
          rw [show unescapeHtml ('&' :: 'g' :: 't' :: ';' :: escape_html rest)
              = '>' :: unescapeHtml (escape_html rest) from rfl, ih]
        · rw [show escChar c = [c] from by simp [escChar, h1, h2, h3]]
          show unescapeHtml (c :: escape_html rest) = c :: rest
          rw [unescapeHtml.eq_def]
          split <;> simp_all

/-- Claim C10: every angle bracket in the output of entities_to_html comes
from a wrapper template, never from the input text, the entity url, the pre
language or the mention id — the bracket counts depend only on the entity
kinds; character escaping is faithful (undoing it restores the input, so
ampersands and angle brackets of the input are all escaped); and an entity
of unknown kind degrades to the escaped plain segment. -/
theorem c10_escaping (text : List Char) (ents : List MessageEntity)
    (s t : List Char) (e : MessageEntity) :
    ((entities_to_html text ents).count '<' = (ents.map tagAngles).sum
      ∧ (entities_to_html text ents).count '>' = (ents.map tagAngles).sum)
    ∧ unescapeHtml (escape_html s) = s
    ∧ (e.offset = 0 → e.length = t.length →
        e.type ∉ (["bold", "italic", "underline", "strikethrough", "code", "pre",
          "text_link", "text_mention"] : List String) →
        entities_to_html t [e] = escape_html t) := by
  refine ⟨⟨?_, ?_⟩, unescape_escape s, ?_⟩
  · cases ents with
    | nil => simp [entities_to_html, count_escape_lt]
    | cons e0 rest =>
      show (entLoop text (sortByOffset (e0 :: rest)) 0).count '<' = _
      rw [count_entLoop_lt]
      exact List.Perm.sum_eq ((sortByOffset_perm _).map tagAngles)
  · cases ents with
    | nil => simp [entities_to_html, count_escape_gt]
    | cons e0 rest =>
      show (entLoop text (sortByOffset (e0 :: rest)) 0).count '>' = _
      rw [count_entLoop_gt]
      exact List.Perm.sum_eq ((sortByOffset_perm _).map tagAngles)
  · intro h0 hlen hunk
    simp only [List.mem_cons, List.mem_singleton, not_or] at hunk
    obtain ⟨hb, hi, hund, hst, hc, hpre, htl, htm⟩ := hunk
    show entLoop t (sortByOffset [e]) 0 = escape_html t
    rw [show sortByOffset [e] = [e] from rfl]
    simp [entLoop, h0, hlen, pySlice, renderEntity, hb, hi, hund, hst, hc, hpre,
      htl, htm]

/-- Claim C10, witness. -/
theorem c10_escaping_witness :
    entities_to_html "a&b".data [MessageEntity.mk 0 3 "spoiler" [] [] none]
      = escape_html "a&b".data :=
  (c10_escaping [] [] [] "a&b".data (MessageEntity.mk 0 3 "spoiler" [] [] none)).2.2
    rfl (by decide) (by decide)

end SGPbot
